import Mathlib

/-!
Shallow embedding of the AWS CDK stacks of the quickstart-nvidia-cheminformatics
repository (`cheminformatics/cheminformatics_stack.py` and
`cheminformatics/megamolbart_stack.py`).

Synthesis is modelled as a pure function from a CDK context (a partial map
from context keys to values, as read by `self.node.try_get_context`) to a
record of declared resources.  Every field of the output records transcribes
an argument passed to a CDK construct in the source; construct defaults that
the source does not set are `none`.
-/

/-- A CDK context value: the repository's `cdk.json` / test contexts hold
strings and numbers. -/
inductive CtxVal
  | str (s : String)
  | nat (n : Nat)
deriving DecidableEq, Repr

/-- A CDK context: what `self.node.try_get_context` reads from. -/
def Ctx : Type := String → Option CtxVal

/-- How Python renders a context value inside an f-string
(`f"... {self.node.try_get_context(k)} ..."`): `None` prints as "None". -/
def fstr : Option CtxVal → String
  | none => "None"
  | some (.str s) => s
  | some (.nat n) => toString n

/-- `RemovalPolicy` of a CDK resource. -/
inductive RemovalPolicy
  | destroy
  | retain
deriving DecidableEq, Repr

/-- `ecs.AmiHardwareType` selecting the ECS-optimized machine image. -/
inductive AmiHardwareType
  | gpu
  | standard
deriving DecidableEq, Repr

/-- `ecs.NetworkMode` of a task definition. -/
inductive NetworkMode
  | aws_vpc
  | bridge
deriving DecidableEq, Repr

/-- `autoscaling.BlockDevice`: device name plus EBS volume size
(`autoscaling.BlockDeviceVolume.ebs(size)`), size as passed from context. -/
structure BlockDevice where
  device_name : String
  ebs_volume_size : Option CtxVal
deriving DecidableEq, Repr

/-- `autoscaling.AutoScalingGroup` as declared by `_create_gpu_capacity`. -/
structure AutoScalingGroup where
  instance_type : Option CtxVal
  machine_image : AmiHardwareType
  user_data : String
  min_capacity : Nat
  max_capacity : Nat
  block_devices : List BlockDevice
deriving DecidableEq, Repr

/-- `ecs.AsgCapacityProvider`; fields are the keyword arguments the source
passes (an argument the source omits is `none`, meaning the CDK default). -/
structure AsgCapacityProvider where
  enable_managed_termination_protection : Bool
  enable_managed_scaling : Option Bool
deriving DecidableEq, Repr

/-- `autoscaling.ScalingInterval` of a step-scaling policy. -/
structure ScalingInterval where
  lower : Option Nat
  upper : Option Nat
  change : Int
deriving DecidableEq, Repr

/-- The metric a step-scaling policy is keyed on; the source uses
`cluster.metric_cpu_utilization()`. -/
inductive ScalingMetric
  | cluster_cpu_utilization
deriving DecidableEq, Repr

/-- `autoscaling.AdjustmentType`. -/
inductive AdjustmentType
  | change_in_capacity
deriving DecidableEq, Repr

/-- `autoscaling.StepScalingPolicy` attached to an auto-scaling group. -/
structure StepScalingPolicy where
  metric : ScalingMetric
  scaling_steps : List ScalingInterval
  adjustment_type : AdjustmentType
deriving DecidableEq, Repr

/-- `ecs.Cluster` plus what is added to it (`add_default_cloud_map_namespace`,
`add_asg_capacity_provider`). -/
structure Cluster where
  container_insights : Bool
  default_cloud_map_namespace : Option String
  capacity_providers : List AsgCapacityProvider
deriving DecidableEq, Repr

/-- `efs.FileSystem`. -/
structure FileSystem where
  removal_policy : RemovalPolicy
deriving DecidableEq, Repr

/-- `ecs.EfsVolumeConfiguration`: reference to the filesystem whose
`file_system_id` it carries (by construct id). -/
structure EfsVolumeConfiguration where
  file_system : String
deriving DecidableEq, Repr

/-- A task-definition volume added by `task_definition.add_volume`. -/
structure TaskVolume where
  name : String
  efs_volume_configuration : EfsVolumeConfiguration
deriving DecidableEq, Repr

/-- `ecs.PortMapping`. -/
structure PortMapping where
  container_port : Nat
deriving DecidableEq, Repr

/-- `ecs.MountPoint`. -/
structure MountPoint where
  container_path : String
  read_only : Bool
  source_volume : String
deriving DecidableEq, Repr

/-- `ecs.ContainerDependencyCondition`. -/
inductive ContainerDependencyCondition
  | complete
  | start
  | success
  | healthy
deriving DecidableEq, Repr

/-- `ecs.ContainerDependency` (the depended-on container named by its
container name). -/
structure ContainerDependency where
  container : String
  condition : ContainerDependencyCondition
deriving DecidableEq, Repr

/-- `ecs.HealthCheck` (only `command` is set by the source). -/
structure HealthCheck where
  command : List String
deriving DecidableEq, Repr

/-- `ecs.LogDrivers.aws_logs(...)`: stream prefix (field `stream_pfx` embeds
the `stream_prefix` argument) and retention in days. -/
structure AwsLogDriver where
  stream_pfx : String
  log_retention_days : Nat
deriving DecidableEq, Repr

/-- A container added by `task_definition.add_container`, together with what
is added to it afterwards (`add_mount_points`, `add_container_dependencies`).
Keyword arguments the source omits are `none`. -/
structure ContainerDef where
  name : String
  image_from_registry : Option CtxVal
  memory_limit_mib : Option Nat
  memory_reservation_mib : Option Nat
  cpu : Nat
  port_mappings : List PortMapping
  logging : AwsLogDriver
  working_directory : Option String
  entry_point : Option (List String)
  command : Option (List String)
  essential : Option Bool
  health_check : Option HealthCheck
  environment : List (String × String)
  mount_points : List MountPoint
  dependencies : List ContainerDependency
deriving DecidableEq, Repr

/-- `ecs.Ec2TaskDefinition` plus its added volumes and containers
(containers listed in `add_container` order). -/
structure TaskDef where
  construct_id : String
  network_mode : NetworkMode
  placement_constraints : List String
  volumes : List TaskVolume
  containers : List ContainerDef
deriving DecidableEq, Repr

/-- `service.auto_scale_task_count(...)` followed by
`scale_on_cpu_utilization(...)`: a task-count scaling policy keyed on CPU
utilization. -/
structure CpuTaskCountScaling where
  min_capacity : Nat
  max_capacity : Nat
  target_utilization_percent : Nat
  scale_in_cooldown_seconds : Nat
  scale_out_cooldown_seconds : Nat
deriving DecidableEq, Repr

/-- `ecs.CloudMapOptions`: service-discovery registration. -/
structure CloudMapOptions where
  name : String
  container : String
deriving DecidableEq, Repr

/-- The load-balancer side of an `ecs_patterns.ApplicationLoadBalancedEc2Service`
(`none` fields are CDK defaults the source does not set;
`target_health_path` records `target_group.configure_health_check(path=...)`). -/
structure AppLoadBalancer where
  listener_port : Option Nat
  load_balancer_name : Option String
  target_health_path : Option String
deriving DecidableEq, Repr

/-- An ECS service: an `ecs.Ec2Service` (when `load_balancer = none`) or an
`ecs_patterns.ApplicationLoadBalancedEc2Service` (when `load_balancer` is
set), plus its task-count auto-scaling. -/
structure EcsService where
  name : String
  task_definition : TaskDef
  desired_count : Option Nat
  placement_constraints : List String
  cloud_map_options : Option CloudMapOptions
  load_balancer : Option AppLoadBalancer
  enable_execute_command : Bool
  cpu_scaling : Option CpuTaskCountScaling
deriving DecidableEq, Repr

/-- One endpoint of a security-group rule. -/
inductive Peer
  | efs_filesystem
  | service (name : String)
deriving DecidableEq, Repr

/-- An `ec2.Port` used in the source's `connections.allow_from` calls. -/
inductive ConnPort
  | tcp (port : Nat)
  | all_tcp
deriving DecidableEq, Repr

/-- A `target.connections.allow_from(source, port)` rule: `target` admits
ingress from `source` on `port`. -/
structure SGRule where
  target : Peer
  source : Peer
  port : ConnPort
deriving DecidableEq, Repr

/-- How the stack acquires its VPC: `ec2.Vpc(...)` (create new, with the
`cidr` and `max_azs` arguments as read from context) or
`ec2.Vpc.from_lookup(...)` (by `vpc_name`). -/
inductive VpcAcquisition
  | create (cidr : Option CtxVal) (max_azs : Option CtxVal)
  | lookup (vpc_name : Option CtxVal)
deriving DecidableEq, Repr

/-- One step of the stack's orchestration, used to record the order in which
the `_create_*` methods are invoked. -/
inductive CreationStep
  | vpc
  | gpu_capacity
  | ecs_cluster
  | efs_volume
  | service (name : String)
deriving DecidableEq, Repr

/-!
## CheminformaticsStack (`cheminformatics/cheminformatics_stack.py`)
-/

namespace CheminformaticsStack

/-- `self.identifier`. -/
def identifier : String := "Cheminformatics"

/-- `self.volume_name`. -/
def volume_name : String := "cheminformatics-data-volume"

/-- `_create_vpc`: create a new VPC when the `create_new_vpc` context value
equals the string "True", otherwise look up the existing VPC by
`existing_vpc_name`. -/
def _create_vpc (ctx : Ctx) : VpcAcquisition :=
  if ctx "create_new_vpc" = some (.str "True") then
    .create (ctx "cidr_block") (ctx "number_of_azs")
  else
    .lookup (ctx "existing_vpc_name")

/-- The user-data commands added in `_create_gpu_capacity` (the triple-quoted
Python string, verbatim). -/
def gpu_user_data : String :=
  "\n            sed -i \x27s/^OPTIONS=\"/OPTIONS=\"--default-runtime nvidia /\x27 /etc/sysconfig/docker && systemctl restart docker\n        "

/-- The auto-scaling group declared in `_create_gpu_capacity`. -/
def auto_scaling_group (ctx : Ctx) : AutoScalingGroup :=
  { instance_type := ctx "instance_type"
  , machine_image := .gpu
  , user_data := gpu_user_data
  , min_capacity := 1
  , max_capacity := 2
  , block_devices :=
      [ { device_name := "/dev/xvda"
        , ebs_volume_size := ctx "ec2_volume_size" } ] }

/-- The capacity provider declared in `_create_gpu_capacity`
(`enable_managed_scaling` is not passed, so it is the CDK default). -/
def capacity_provider : AsgCapacityProvider :=
  { enable_managed_termination_protection := false
  , enable_managed_scaling := none }

/-- `_create_ecs_cluster`: cluster with container insights, the
`service.local` cloud-map namespace, and the GPU capacity provider. -/
def cluster : Cluster :=
  { container_insights := true
  , default_cloud_map_namespace := some "service.local"
  , capacity_providers := [capacity_provider] }

/-- `_create_efs_volume`: the EFS filesystem. -/
def efs_filesystem : FileSystem :=
  { removal_policy := .destroy }

/-- `_create_efs_volume`: the ECS volume configuration referring to the
filesystem's `file_system_id`. -/
def efs_volume_configuration : EfsVolumeConfiguration :=
  { file_system := identifier ++ "-EFSFilesystem" }

/-- The placement-constraint expression
`f"attribute:ecs.instance-type == {self.node.try_get_context('instance_type')}"`. -/
def placement_expr (ctx : Ctx) : String :=
  "attribute:ecs.instance-type == " ++ fstr (ctx "instance_type")

/-- The `megamolbart-init` container of `_create_megamolbart_service`,
including the f-string download command with its Python line continuations
resolved. -/
def megamolbart_init_container (ctx : Ctx) : ContainerDef :=
  { name := "megamolbart-init"
  , image_from_registry := some (.str "ubuntu:22.04")
  , memory_limit_mib := some 1024
  , memory_reservation_mib := none
  , cpu := 1024
  , port_mappings := []
  , logging := { stream_pfx := identifier ++ "-db-init-", log_retention_days := 7 }
  , working_directory := some "/models/megamolbart"
  , entry_point := some ["/bin/bash", "-c"]
  , command := some
      [ "apt-get update &&                 apt-get install wget unzip -y &&                 wget --content-disposition "
          ++ fstr (ctx "megamolbart_model_url")
          ++ " -nc -O megamolbart_0.1.zip &&                 unzip megamolbart_0.1.zip" ]
  , essential := some false
  , health_check := none
  , environment := []
  , mount_points :=
      [ { container_path := "/models", read_only := false, source_volume := volume_name } ]
  , dependencies := [] }

/-- The `megamolbart` container of `_create_megamolbart_service`: two mount
points added in order, and a dependency on the init container reaching
COMPLETE. -/
def megamolbart_container (ctx : Ctx) : ContainerDef :=
  { name := "megamolbart"
  , image_from_registry := ctx "megamolbart_container"
  , memory_limit_mib := none
  , memory_reservation_mib := some 2048
  , cpu := 2048
  , port_mappings := [{ container_port := 50051 }]
  , logging := { stream_pfx := identifier ++ "-", log_retention_days := 7 }
  , working_directory := none
  , entry_point := none
  , command := none
  , essential := none
  , health_check := none
  , environment := []
  , mount_points :=
      [ { container_path := "/data", read_only := false, source_volume := volume_name }
      , { container_path := "/models", read_only := false, source_volume := volume_name } ]
  , dependencies := [ { container := "megamolbart-init", condition := .complete } ] }

/-- The `Megamolbart-Task` task definition of `_create_megamolbart_service`. -/
def megamolbart_task_definition (ctx : Ctx) : TaskDef :=
  { construct_id := "Megamolbart-Task"
  , network_mode := .aws_vpc
  , placement_constraints := [placement_expr ctx]
  , volumes := [ { name := volume_name, efs_volume_configuration := efs_volume_configuration } ]
  , containers := [megamolbart_init_container ctx, megamolbart_container ctx] }

/-- The `megamolbart` ECS service of `_create_megamolbart_service`: an
internal `ecs.Ec2Service` (no load balancer), registered in service
discovery, with task-count auto-scaling on CPU utilization. -/
def megamolbart_service (ctx : Ctx) : EcsService :=
  { name := "megamolbart-service"
  , task_definition := megamolbart_task_definition ctx
  , desired_count := none
  , placement_constraints := [placement_expr ctx]
  , cloud_map_options := some { name := "megamolbart", container := "megamolbart" }
  , load_balancer := none
  , enable_execute_command := true
  , cpu_scaling := some
      { min_capacity := 1
      , max_capacity := 4
      , target_utilization_percent := 50
      , scale_in_cooldown_seconds := 60
      , scale_out_cooldown_seconds := 60 } }

/-- The `cuchem-init` container of `_create_cuchem_service`. -/
def cuchem_init_container (ctx : Ctx) : ContainerDef :=
  { name := "cuchem-init"
  , image_from_registry := ctx "cheminformatics_container"
  , memory_limit_mib := some 1024
  , memory_reservation_mib := none
  , cpu := 1024
  , port_mappings := []
  , logging := { stream_pfx := identifier ++ "-db-init-", log_retention_days := 7 }
  , working_directory := some "/opt/nvidia/cheminfomatics/setup"
  , entry_point := some ["/bin/bash", "-c"]
  , command := some ["source ./env.sh && dbSetup /data"]
  , essential := some false
  , health_check := none
  , environment := []
  , mount_points :=
      [ { container_path := "/data", read_only := false, source_volume := volume_name } ]
  , dependencies := [] }

/-- The `cuchem` container of `_create_cuchem_service`. -/
def cuchem_container (ctx : Ctx) : ContainerDef :=
  { name := "cuchem"
  , image_from_registry := ctx "cheminformatics_container"
  , memory_limit_mib := none
  , memory_reservation_mib := some 4096
  , cpu := 1024
  , port_mappings := [{ container_port := 5000 }]
  , logging := { stream_pfx := identifier ++ "-", log_retention_days := 7 }
  , working_directory := none
  , entry_point := none
  , command := none
  , essential := none
  , health_check := none
  , environment := [("Megamolbart", "megamolbart.service.local:50051")]
  , mount_points :=
      [ { container_path := "/data", read_only := false, source_volume := volume_name } ]
  , dependencies := [ { container := "cuchem-init", condition := .complete } ] }

/-- The `Cuchem-Task` task definition of `_create_cuchem_service`. -/
def cuchem_task_definition (ctx : Ctx) : TaskDef :=
  { construct_id := "Cuchem-Task"
  , network_mode := .aws_vpc
  , placement_constraints := [placement_expr ctx]
  , volumes := [ { name := volume_name, efs_volume_configuration := efs_volume_configuration } ]
  , containers := [cuchem_init_container ctx, cuchem_container ctx] }

/-- The `cuchem` service of `_create_cuchem_service`: an
`ecs_patterns.ApplicationLoadBalancedEc2Service` on listener port 80,
registered in service discovery, with task-count auto-scaling on CPU
utilization. -/
def cuchem_service (ctx : Ctx) : EcsService :=
  { name := identifier ++ "-Cuchem-Service"
  , task_definition := cuchem_task_definition ctx
  , desired_count := none
  , placement_constraints := []
  , cloud_map_options := some { name := "cuchem", container := "cuchem" }
  , load_balancer := some
      { listener_port := some 80
      , load_balancer_name := some "cheminformatics-cuchem-lb"
      , target_health_path := none }
  , enable_execute_command := false
  , cpu_scaling := some
      { min_capacity := 1
      , max_capacity := 4
      , target_utilization_percent := 50
      , scale_in_cooldown_seconds := 60
      , scale_out_cooldown_seconds := 60 } }

/-- The security-group rules declared by the stack, in declaration order:
`_create_cuchem_service` allows cuchem → EFS on TCP 2049, then
`_create_megamolbart_service` allows megamolbart → EFS on TCP 2049 and
cuchem → megamolbart on all TCP ports. -/
def security_rules : List SGRule :=
  [ { target := .efs_filesystem, source := .service "cuchem", port := .tcp 2049 }
  , { target := .efs_filesystem, source := .service "megamolbart", port := .tcp 2049 }
  , { target := .service "megamolbart", source := .service "cuchem", port := .all_tcp } ]

/-- The order in which `create_resources` invokes the `_create_*` methods. -/
def creation_order : List CreationStep :=
  [ .vpc, .gpu_capacity, .ecs_cluster, .efs_volume
  , .service "cuchem", .service "megamolbart" ]

end CheminformaticsStack

/-- Everything the `CheminformaticsStack` declares. -/
structure ChemStackOutput where
  vpc : VpcAcquisition
  auto_scaling_group : AutoScalingGroup
  capacity_provider : AsgCapacityProvider
  cluster : Cluster
  efs_filesystem : FileSystem
  services : List EcsService
  security_rules : List SGRule
  creation_order : List CreationStep
deriving DecidableEq, Repr

/-- Synthesizing `CheminformaticsStack` under context `ctx`
(`create_resources`): the complete set of declared resources, the services
listed in creation order (cuchem, then megamolbart). -/
def synthCheminformatics (ctx : Ctx) : ChemStackOutput :=
  { vpc := CheminformaticsStack._create_vpc ctx
  , auto_scaling_group := CheminformaticsStack.auto_scaling_group ctx
  , capacity_provider := CheminformaticsStack.capacity_provider
  , cluster := CheminformaticsStack.cluster
  , efs_filesystem := CheminformaticsStack.efs_filesystem
  , services := [CheminformaticsStack.cuchem_service ctx, CheminformaticsStack.megamolbart_service ctx]
  , security_rules := CheminformaticsStack.security_rules
  , creation_order := CheminformaticsStack.creation_order }

/-!
## MegamolbartStack (`cheminformatics/megamolbart_stack.py`)
-/

namespace MegamolbartStack

/-- `self.identifier`. -/
def identifier : String := "Megamolbart"

/-- `self.volume_name`. -/
def volume_name : String := "megamolbart-data-volume"

/-- `_create_vpc`: same conditional acquisition as the Cheminformatics
stack. -/
def _create_vpc (ctx : Ctx) : VpcAcquisition :=
  if ctx "create_new_vpc" = some (.str "True") then
    .create (ctx "cidr_block") (ctx "number_of_azs")
  else
    .lookup (ctx "existing_vpc_name")

/-- `_create_ecs_cluster`: cluster with container insights only (no cloud-map
namespace here; the capacity provider is added later by
`_create_gpu_capacity`). -/
def cluster : Cluster :=
  { container_insights := true
  , default_cloud_map_namespace := none
  , capacity_providers := [ { enable_managed_termination_protection := false
                            , enable_managed_scaling := some false } ] }

/-- The user-data commands added in `_create_gpu_capacity` (the triple-quoted
Python string with its backslash line continuations resolved). -/
def gpu_user_data : String :=
  "\n            sed -i \x27s/^OPTIONS=\"/OPTIONS=\"--default-runtime nvidia /\x27 /etc/sysconfig/docker && systemctl restart docker &&             yum install python2-pip -y &&             pip install nvidia-ml-py boto3 &&             curl https://s3.amazonaws.com/aws-bigdata-blog/artifacts/GPUMonitoring/gpumon.py > gpumon.py &&             python gpumon.py & \n            "

/-- The auto-scaling group declared in `_create_gpu_capacity`. -/
def auto_scaling_group (ctx : Ctx) : AutoScalingGroup :=
  { instance_type := ctx "instance_type"
  , machine_image := .gpu
  , user_data := gpu_user_data
  , min_capacity := 1
  , max_capacity := 2
  , block_devices :=
      [ { device_name := "/dev/xvda"
        , ebs_volume_size := ctx "ec2_volume_size" } ] }

/-- The custom step-scaling policy of `_create_gpu_capacity`, keyed on the
cluster's CPU-utilization metric. -/
def step_scaling_policy : StepScalingPolicy :=
  { metric := .cluster_cpu_utilization
  , scaling_steps :=
      [ { lower := none, upper := some 15, change := -1 }
      , { lower := some 30, upper := none, change := 1 }
      , { lower := some 50, upper := none, change := 1 } ]
  , adjustment_type := .change_in_capacity }

/-- `_create_efs_volume`: the EFS filesystem. -/
def efs_filesystem : FileSystem :=
  { removal_policy := .destroy }

/-- `_create_efs_volume`: the ECS volume configuration referring to the
filesystem's `file_system_id`. -/
def efs_volume_configuration : EfsVolumeConfiguration :=
  { file_system := identifier ++ "-EFSFilesystem" }

/-- The placement-constraint expression built from `instance_type`. -/
def placement_expr (ctx : Ctx) : String :=
  "attribute:ecs.instance-type == " ++ fstr (ctx "instance_type")

/-- The single `megamolbart` container of `_create_megamolbart_service`:
a container health-check command, two mount points, and no container
dependencies. -/
def megamolbart_container (ctx : Ctx) : ContainerDef :=
  { name := "megamolbart"
  , image_from_registry := ctx "megamolbart_container"
  , memory_limit_mib := none
  , memory_reservation_mib := some 4096
  , cpu := 2048
  , port_mappings := [{ container_port := 8888 }]
  , logging := { stream_pfx := identifier ++ "-", log_retention_days := 7 }
  , working_directory := none
  , entry_point := none
  , command := none
  , essential := none
  , health_check := some
      { command := ["CMD-SHELL", "curl -f http://localhost:8888/api || exit 1"] }
  , environment := []
  , mount_points :=
      [ { container_path := "/data", read_only := false, source_volume := volume_name }
      , { container_path := "/result", read_only := false, source_volume := volume_name } ]
  , dependencies := [] }

/-- The `Megamolbart-Task` task definition. -/
def megamolbart_task_definition (ctx : Ctx) : TaskDef :=
  { construct_id := "Megamolbart-Task"
  , network_mode := .aws_vpc
  , placement_constraints := [placement_expr ctx]
  , volumes := [ { name := volume_name, efs_volume_configuration := efs_volume_configuration } ]
  , containers := [megamolbart_container ctx] }

/-- The single service of the stack: an
`ecs_patterns.ApplicationLoadBalancedEc2Service` with desired count 3,
its target group health-checking path `/api`, and task-count auto-scaling
on CPU utilization. -/
def megamolbart_service (ctx : Ctx) : EcsService :=
  { name := identifier ++ "-Megamolbart-Service"
  , task_definition := megamolbart_task_definition ctx
  , desired_count := some 3
  , placement_constraints := []
  , cloud_map_options := none
  , load_balancer := some
      { listener_port := none
      , load_balancer_name := none
      , target_health_path := some "/api" }
  , enable_execute_command := false
  , cpu_scaling := some
      { min_capacity := 1
      , max_capacity := 10
      , target_utilization_percent := 30
      , scale_in_cooldown_seconds := 60
      , scale_out_cooldown_seconds := 60 } }

/-- The security-group rules declared by the stack: the service is allowed
to reach EFS on TCP 2049. -/
def security_rules : List SGRule :=
  [ { target := .efs_filesystem, source := .service "megamolbart", port := .tcp 2049 } ]

/-- The order in which `__init__` invokes the `_create_*` methods. -/
def creation_order : List CreationStep :=
  [ .vpc, .ecs_cluster, .gpu_capacity, .efs_volume, .service "megamolbart" ]

end MegamolbartStack

/-- Everything the `MegamolbartStack` declares. -/
structure MegaStackOutput where
  vpc : VpcAcquisition
  cluster : Cluster
  auto_scaling_group : AutoScalingGroup
  step_scaling_policy : StepScalingPolicy
  efs_filesystem : FileSystem
  services : List EcsService
  security_rules : List SGRule
  creation_order : List CreationStep
deriving DecidableEq, Repr

/-- Synthesizing `MegamolbartStack` under context `ctx` (`__init__`). -/
def synthMegamolbart (ctx : Ctx) : MegaStackOutput :=
  { vpc := MegamolbartStack._create_vpc ctx
  , cluster := MegamolbartStack.cluster
  , auto_scaling_group := MegamolbartStack.auto_scaling_group ctx
  , step_scaling_policy := MegamolbartStack.step_scaling_policy
  , efs_filesystem := MegamolbartStack.efs_filesystem
  , services := [MegamolbartStack.megamolbart_service ctx]
  , security_rules := MegamolbartStack.security_rules
  , creation_order := MegamolbartStack.creation_order }

/-!
## Sample contexts

`sampleCtx` is the synthesis context supplied by the repository's unit test
(`tests/unit/test_cheminformatics_stack.py`); the variants flip the VPC flag
or add a key no stack consumes.
-/

/-- The context of the repository's unit test. -/
def sampleCtx : Ctx := fun k =>
  if k = "create_new_vpc" then some (.str "True")
  else if k = "existing_vpc_name" then some (.str "SomeVpcName")
  else if k = "cidr_block" then some (.str "10.0.0.0/24")
  else if k = "number_of_azs" then some (.nat 2)
  else if k = "ec2_volume_size" then some (.nat 100)
  else if k = "instance_type" then some (.str "p3.2xlarge")
  else if k = "cheminformatics_container" then some (.str "public.ecr.aws/b9g4r0v3/cheminformatics_demo:0.1.2")
  else if k = "megamolbart_container" then some (.str "nvcr.io/nvidia/clara/megamolbart:0.1.2")
  else if k = "megamolbart_model_url" then some (.str "https://api.ngc.nvidia.com/v2/models/nvidia/clara/megamolbart/versions/0.1/zip")
  else none

/-- `sampleCtx` with the `create_new_vpc` flag not equal to "True". -/
def sampleCtxLookup : Ctx := fun k =>
  if k = "create_new_vpc" then some (.str "False") else sampleCtx k

/-- `sampleCtx` extended with a context key neither stack reads. -/
def sampleCtxExtra : Ctx := fun k =>
  if k = "unrelated_extra_key" then some (.str "noise") else sampleCtx k

/-!
## Claims
-/

/-- C1: synthesizing `CheminformaticsStack` yields a VPC, one GPU-backed ECS
cluster with cloud-map namespace `service.local`, one shared EFS filesystem
(both task definitions mount the same EFS-backed volume), and two ECS
services — cuchem behind an application load balancer on listener port 80
and megamolbart as an internal service (no load balancer) exposing container
port 50051 — both registered in service discovery, connected by
security-group rules, and each carrying a CPU-utilization task-count
auto-scaling policy. -/
theorem c1_cheminformatics_resource_composition (ctx : Ctx) :
    ∃ cu mm,
      (synthCheminformatics ctx).services = [cu, mm] ∧
      ((synthCheminformatics ctx).vpc = .create (ctx "cidr_block") (ctx "number_of_azs") ∨
        (synthCheminformatics ctx).vpc = .lookup (ctx "existing_vpc_name")) ∧
      (synthCheminformatics ctx).cluster.default_cloud_map_namespace = some "service.local" ∧
      (synthCheminformatics ctx).auto_scaling_group.machine_image = AmiHardwareType.gpu ∧
      (synthCheminformatics ctx).cluster.capacity_providers = [CheminformaticsStack.capacity_provider] ∧
      cu.task_definition.volumes =
        [⟨CheminformaticsStack.volume_name, CheminformaticsStack.efs_volume_configuration⟩] ∧
      mm.task_definition.volumes =
        [⟨CheminformaticsStack.volume_name, CheminformaticsStack.efs_volume_configuration⟩] ∧
      cu.load_balancer = some ⟨some 80, some "cheminformatics-cuchem-lb", none⟩ ∧
      mm.load_balancer = none ∧
      mm.task_definition.containers.map (fun c => c.port_mappings) = [[], [⟨50051⟩]] ∧
      cu.cloud_map_options = some ⟨"cuchem", "cuchem"⟩ ∧
      mm.cloud_map_options = some ⟨"megamolbart", "megamolbart"⟩ ∧
      (synthCheminformatics ctx).security_rules =
        [ ⟨.efs_filesystem, .service "cuchem", .tcp 2049⟩
        , ⟨.efs_filesystem, .service "megamolbart", .tcp 2049⟩
        , ⟨.service "megamolbart", .service "cuchem", .all_tcp⟩ ] ∧
      cu.cpu_scaling.isSome = true ∧
      mm.cpu_scaling.isSome = true := by
  refine ⟨CheminformaticsStack.cuchem_service ctx, CheminformaticsStack.megamolbart_service ctx,
    rfl, ?_, rfl, rfl, rfl, rfl, rfl, rfl, rfl, rfl, rfl, rfl, rfl, rfl, rfl⟩
  by_cases hT : ctx "create_new_vpc" = some (CtxVal.str "True")
  · exact Or.inl (by simp [synthCheminformatics, CheminformaticsStack._create_vpc, hT])
  · exact Or.inr (by simp [synthCheminformatics, CheminformaticsStack._create_vpc, hT])

/-- C2: synthesizing `MegamolbartStack` yields a standalone deployment with
its own VPC acquisition, a GPU ECS cluster whose auto-scaling group carries
a custom step-scaling policy keyed on the cluster CPU-utilization metric
(change -1 below 15, +1 above 30, +1 above 50), an EFS filesystem, and
exactly one application-load-balanced ECS service whose container defines a
health-check command on `http://localhost:8888/api` and whose load-balancer
target group health-checks path `/api`. -/
theorem c2_megamolbart_resource_composition (ctx : Ctx) :
    ∃ svc,
      (synthMegamolbart ctx).services = [svc] ∧
      ((synthMegamolbart ctx).vpc = .create (ctx "cidr_block") (ctx "number_of_azs") ∨
        (synthMegamolbart ctx).vpc = .lookup (ctx "existing_vpc_name")) ∧
      (synthMegamolbart ctx).auto_scaling_group.machine_image = AmiHardwareType.gpu ∧
      (synthMegamolbart ctx).cluster.capacity_providers ≠ [] ∧
      (synthMegamolbart ctx).step_scaling_policy =
        { metric := .cluster_cpu_utilization
        , scaling_steps :=
            [ ⟨none, some 15, -1⟩, ⟨some 30, none, 1⟩, ⟨some 50, none, 1⟩ ]
        , adjustment_type := .change_in_capacity } ∧
      (synthMegamolbart ctx).efs_filesystem = ⟨.destroy⟩ ∧
      svc.load_balancer = some ⟨none, none, some "/api"⟩ ∧
      svc.task_definition.containers.map (fun c => c.health_check) =
        [some ⟨["CMD-SHELL", "curl -f http://localhost:8888/api || exit 1"]⟩] := by
  refine ⟨MegamolbartStack.megamolbart_service ctx,
    rfl, ?_, rfl, by simp [synthMegamolbart, MegamolbartStack.cluster], rfl, rfl, rfl, rfl⟩
  by_cases hT : ctx "create_new_vpc" = some (CtxVal.str "True")
  · exact Or.inl (by simp [synthMegamolbart, MegamolbartStack._create_vpc, hT])
  · exact Or.inr (by simp [synthMegamolbart, MegamolbartStack._create_vpc, hT])

/-- C3 counterexample: in `CheminformaticsStack.create_resources` the ECS
cluster is NOT created right after the VPC — GPU capacity comes second and
the cluster third — so the claimed common order (VPC, cluster, GPU capacity,
EFS, services) does not hold for this stack. -/
theorem c3_chem_order_counterexample :
    (synthCheminformatics sampleCtx).creation_order ≠
      [ CreationStep.vpc, .ecs_cluster, .gpu_capacity, .efs_volume
      , .service "cuchem", .service "megamolbart" ] := by decide

/-- C3 (amended): `MegamolbartStack` builds VPC, then cluster, then GPU
capacity, then EFS, then its service; `CheminformaticsStack` builds VPC,
then GPU capacity, then cluster, then EFS, then its two services (cuchem,
then megamolbart). -/
theorem c3_creation_order (ctx : Ctx) :
    (synthCheminformatics ctx).creation_order =
      [ CreationStep.vpc, .gpu_capacity, .ecs_cluster, .efs_volume
      , .service "cuchem", .service "megamolbart" ] ∧
    (synthMegamolbart ctx).creation_order =
      [ CreationStep.vpc, .ecs_cluster, .gpu_capacity, .efs_volume
      , .service "megamolbart" ] :=
  ⟨rfl, rfl⟩

/-- C4: in each stack, VPC acquisition is decided by the `create_new_vpc`
context flag alone — when it is the string "True" a new VPC is created with
the configured `cidr_block` and `number_of_azs`, otherwise an existing VPC
is looked up by `existing_vpc_name` — and exactly one of the two branches is
taken for every context. -/
theorem c4_conditional_vpc_acquisition (ctx : Ctx) :
    (ctx "create_new_vpc" = some (CtxVal.str "True") →
      (synthCheminformatics ctx).vpc = .create (ctx "cidr_block") (ctx "number_of_azs") ∧
      (synthMegamolbart ctx).vpc = .create (ctx "cidr_block") (ctx "number_of_azs")) ∧
    (ctx "create_new_vpc" ≠ some (CtxVal.str "True") →
      (synthCheminformatics ctx).vpc = .lookup (ctx "existing_vpc_name") ∧
      (synthMegamolbart ctx).vpc = .lookup (ctx "existing_vpc_name")) ∧
    ((synthCheminformatics ctx).vpc = .create (ctx "cidr_block") (ctx "number_of_azs") ∨
      (synthCheminformatics ctx).vpc = .lookup (ctx "existing_vpc_name")) ∧
    ¬ ((synthCheminformatics ctx).vpc = .create (ctx "cidr_block") (ctx "number_of_azs") ∧
      (synthCheminformatics ctx).vpc = .lookup (ctx "existing_vpc_name")) := by
  by_cases hT : ctx "create_new_vpc" = some (CtxVal.str "True") <;>
    simp [synthCheminformatics, synthMegamolbart,
      CheminformaticsStack._create_vpc, MegamolbartStack._create_vpc, hT]

/-- Witness for C4: under the unit-test context the creation branch is taken
in both stacks, and with the flag set to "False" the lookup branch is taken. -/
theorem c4_conditional_vpc_acquisition_witness :
    ((synthCheminformatics sampleCtx).vpc =
        .create (sampleCtx "cidr_block") (sampleCtx "number_of_azs") ∧
      (synthMegamolbart sampleCtx).vpc =
        .create (sampleCtx "cidr_block") (sampleCtx "number_of_azs")) ∧
    ((synthCheminformatics sampleCtxLookup).vpc =
        .lookup (sampleCtxLookup "existing_vpc_name") ∧
      (synthMegamolbart sampleCtxLookup).vpc =
        .lookup (sampleCtxLookup "existing_vpc_name")) :=
  ⟨(c4_conditional_vpc_acquisition sampleCtx).1 (by decide),
   (c4_conditional_vpc_acquisition sampleCtxLookup).2.1 (by decide)⟩

/-- C5 counterexample: in `MegamolbartStack` the single service's task
definition declares exactly one container and that container carries no
container dependency — there is no initialization container and no COMPLETE
ordering in that stack, contrary to the claim that both stacks have one. -/
theorem c5_no_init_container_in_megamolbart_stack :
    (synthMegamolbart sampleCtx).services.map
        (fun s => s.task_definition.containers.map (fun c => (c.name, c.dependencies))) =
      [[("megamolbart", [])]] := by decide

/-- C5 (amended): in `CheminformaticsStack` each of the two services
declares an initialization container and its main container depends on the
init container reaching the COMPLETE condition; in `MegamolbartStack` the
single service has one container and no container dependency. -/
theorem c5_init_container_dependencies (ctx : Ctx) :
    (synthCheminformatics ctx).services.map
        (fun s => s.task_definition.containers.map (fun c => (c.name, c.dependencies))) =
      [ [("cuchem-init", []), ("cuchem", [⟨"cuchem-init", .complete⟩])]
      , [("megamolbart-init", []), ("megamolbart", [⟨"megamolbart-init", .complete⟩])] ] ∧
    (synthMegamolbart ctx).services.map
        (fun s => s.task_definition.containers.map (fun c => (c.name, c.dependencies))) =
      [[("megamolbart", [])]] :=
  ⟨rfl, rfl⟩

/-- C6: every task-count auto-scaling policy attached by either stack is
keyed on CPU utilization with scale-in cooldown 60 s and scale-out cooldown
60 s; target utilization is 50 for both `CheminformaticsStack` services and
30 for the `MegamolbartStack` service. -/
theorem c6_cpu_scaling_policies (ctx : Ctx) :
    (synthCheminformatics ctx).services.map (fun s => s.cpu_scaling) =
      [ some ⟨1, 4, 50, 60, 60⟩, some ⟨1, 4, 50, 60, 60⟩ ] ∧
    (synthMegamolbart ctx).services.map (fun s => s.cpu_scaling) =
      [ some ⟨1, 10, 30, 60, 60⟩ ] :=
  ⟨rfl, rfl⟩

/-- C9: the security-group rules of `CheminformaticsStack` are exactly —
EFS admits cuchem on TCP 2049, EFS admits megamolbart on TCP 2049 (both
services mount the shared EFS volume, and EFS admits no other port), and
megamolbart admits cuchem on all TCP ports; no rule admits traffic from
megamolbart to cuchem.  `MegamolbartStack` has exactly one rule: EFS admits
its (EFS-mounting) service on TCP 2049. -/
theorem c9_security_group_rules (ctx : Ctx) :
    (synthCheminformatics ctx).security_rules =
      [ ⟨.efs_filesystem, .service "cuchem", .tcp 2049⟩
      , ⟨.efs_filesystem, .service "megamolbart", .tcp 2049⟩
      , ⟨.service "megamolbart", .service "cuchem", .all_tcp⟩ ] ∧
    (synthCheminformatics ctx).services.map (fun s => s.task_definition.volumes) =
      [ [⟨CheminformaticsStack.volume_name, CheminformaticsStack.efs_volume_configuration⟩]
      , [⟨CheminformaticsStack.volume_name, CheminformaticsStack.efs_volume_configuration⟩] ] ∧
    (synthMegamolbart ctx).security_rules =
      [ ⟨.efs_filesystem, .service "megamolbart", .tcp 2049⟩ ] ∧
    (synthMegamolbart ctx).services.map (fun s => s.task_definition.volumes) =
      [ [⟨MegamolbartStack.volume_name, MegamolbartStack.efs_volume_configuration⟩] ] :=
  ⟨rfl, rfl, rfl, rfl⟩

/-- C10: in both stacks the EFS filesystem is declared with removal policy
DESTROY, and the GPU auto-scaling group has fixed capacity bounds min 1 and
max 2, regardless of the context. -/
theorem c10_efs_destroy_and_asg_bounds (ctx : Ctx) :
    (synthCheminformatics ctx).efs_filesystem.removal_policy = RemovalPolicy.destroy ∧
    (synthMegamolbart ctx).efs_filesystem.removal_policy = RemovalPolicy.destroy ∧
    (synthCheminformatics ctx).auto_scaling_group.min_capacity = 1 ∧
    (synthCheminformatics ctx).auto_scaling_group.max_capacity = 2 ∧
    (synthMegamolbart ctx).auto_scaling_group.min_capacity = 1 ∧
    (synthMegamolbart ctx).auto_scaling_group.max_capacity = 2 :=
  ⟨rfl, rfl, rfl, rfl, rfl, rfl⟩

/-- The nine context keys read (via `try_get_context`) across the two
stacks. -/
def consumed_context_keys : List String :=
  [ "create_new_vpc", "cidr_block", "number_of_azs", "existing_vpc_name"
  , "instance_type", "ec2_volume_size", "megamolbart_container"
  , "megamolbart_model_url", "cheminformatics_container" ]

/-- C7: synthesis consumes only the nine listed context keys — two contexts
that agree on them produce identical templates for both stacks. -/
theorem c7_template_depends_only_on_consumed_keys (ctx₁ ctx₂ : Ctx)
    (h : ∀ k ∈ consumed_context_keys, ctx₁ k = ctx₂ k) :
    synthCheminformatics ctx₁ = synthCheminformatics ctx₂ ∧
    synthMegamolbart ctx₁ = synthMegamolbart ctx₂ := by
  have h₁ := h "create_new_vpc" (by simp [consumed_context_keys])
  have h₂ := h "cidr_block" (by simp [consumed_context_keys])
  have h₃ := h "number_of_azs" (by simp [consumed_context_keys])
  have h₄ := h "existing_vpc_name" (by simp [consumed_context_keys])
  have h₅ := h "instance_type" (by simp [consumed_context_keys])
  have h₆ := h "ec2_volume_size" (by simp [consumed_context_keys])
  have h₇ := h "megamolbart_container" (by simp [consumed_context_keys])
  have h₈ := h "megamolbart_model_url" (by simp [consumed_context_keys])
  have h₉ := h "cheminformatics_container" (by simp [consumed_context_keys])
  constructor <;>
    simp only [synthCheminformatics, synthMegamolbart,
      CheminformaticsStack._create_vpc, CheminformaticsStack.auto_scaling_group,
      CheminformaticsStack.cuchem_service, CheminformaticsStack.cuchem_task_definition,
      CheminformaticsStack.cuchem_init_container, CheminformaticsStack.cuchem_container,
      CheminformaticsStack.megamolbart_service, CheminformaticsStack.megamolbart_task_definition,
      CheminformaticsStack.megamolbart_init_container, CheminformaticsStack.megamolbart_container,
      CheminformaticsStack.placement_expr,
      MegamolbartStack._create_vpc, MegamolbartStack.auto_scaling_group,
      MegamolbartStack.megamolbart_service, MegamolbartStack.megamolbart_task_definition,
      MegamolbartStack.megamolbart_container, MegamolbartStack.placement_expr,
      h₁, h₂, h₃, h₄, h₅, h₆, h₇, h₈, h₉]

/-- Witness for C7: the unit-test context and the same context extended with
an unread key agree on the nine consumed keys and synthesize identical
templates. -/
theorem c7_template_depends_only_on_consumed_keys_witness :
    (∀ k ∈ consumed_context_keys, sampleCtx k = sampleCtxExtra k) ∧
    synthCheminformatics sampleCtx = synthCheminformatics sampleCtxExtra ∧
    synthMegamolbart sampleCtx = synthMegamolbart sampleCtxExtra := by
  have hag : ∀ k ∈ consumed_context_keys, sampleCtx k = sampleCtxExtra k := by decide
  exact ⟨hag, c7_template_depends_only_on_consumed_keys sampleCtx sampleCtxExtra hag⟩

/-!
## Synthesis-time validation (claim C8)

The stacks themselves raise nothing: in the embedding above both synthesis
functions are total, mirroring the absence of any `raise`/`try` in the
source.  Configuration validation happens in the third-party framework, not
in `src/`, so it is modelled below from the spec.
-/

/-- Modelled from the spec: the underlying infrastructure framework (absent
from `src/`) rejects a context value bound to a string-typed construct
parameter that is missing or not a string; the repository adds no logic of
its own. -/
def requireStr : Option CtxVal → Except String String
  | some (.str s) => .ok s
  | _ => .error "context value missing or not a string"

/-- Modelled from the spec: the framework likewise rejects a context value
bound to a number-typed construct parameter that is missing or not a
number. -/
def requireNat : Option CtxVal → Except String Nat
  | some (.nat n) => .ok n
  | _ => .error "context value missing or not a number"

/-- `CheminformaticsStack` synthesis with the framework's validation made
explicit at each point where the stack passes a context value to a typed
construct parameter (`ec2.Vpc`/`Vpc.from_lookup`, `ec2.InstanceType`,
`BlockDeviceVolume.ebs`, `ContainerImage.from_registry`); the stack code
contributes no failure of its own. -/
def synthCheminformaticsChecked (ctx : Ctx) : Except String ChemStackOutput := do
  if ctx "create_new_vpc" = some (.str "True") then
    let _ ← requireStr (ctx "cidr_block")
    let _ ← requireNat (ctx "number_of_azs")
  else
    let _ ← requireStr (ctx "existing_vpc_name")
  let _ ← requireStr (ctx "instance_type")
  let _ ← requireNat (ctx "ec2_volume_size")
  let _ ← requireStr (ctx "cheminformatics_container")
  let _ ← requireStr (ctx "megamolbart_container")
  pure (synthCheminformatics ctx)

/-- `MegamolbartStack` synthesis with the framework's validation made
explicit (this stack reads no `megamolbart_model_url` or
`cheminformatics_container`). -/
def synthMegamolbartChecked (ctx : Ctx) : Except String MegaStackOutput := do
  if ctx "create_new_vpc" = some (.str "True") then
    let _ ← requireStr (ctx "cidr_block")
    let _ ← requireNat (ctx "number_of_azs")
  else
    let _ ← requireStr (ctx "existing_vpc_name")
  let _ ← requireStr (ctx "instance_type")
  let _ ← requireNat (ctx "ec2_volume_size")
  let _ ← requireStr (ctx "megamolbart_container")
  pure (synthMegamolbart ctx)

/-- A context supplying a value of the expected kind for every consumed
key. -/
def ValidCtx (ctx : Ctx) : Prop :=
  (∃ s, ctx "create_new_vpc" = some (CtxVal.str s)) ∧
  (∃ s, ctx "cidr_block" = some (CtxVal.str s)) ∧
  (∃ n, ctx "number_of_azs" = some (CtxVal.nat n)) ∧
  (∃ s, ctx "existing_vpc_name" = some (CtxVal.str s)) ∧
  (∃ s, ctx "instance_type" = some (CtxVal.str s)) ∧
  (∃ n, ctx "ec2_volume_size" = some (CtxVal.nat n)) ∧
  (∃ s, ctx "megamolbart_container" = some (CtxVal.str s)) ∧
  (∃ s, ctx "megamolbart_model_url" = some (CtxVal.str s)) ∧
  (∃ s, ctx "cheminformatics_container" = some (CtxVal.str s))

/-- C8: neither stack contains error-raising logic of its own — with the
framework's validation made explicit, synthesis under any context supplying
valid values for all consumed keys completes without error and returns
exactly the declared resources. -/
theorem c8_valid_context_synthesizes (ctx : Ctx) (h : ValidCtx ctx) :
    synthCheminformaticsChecked ctx = Except.ok (synthCheminformatics ctx) ∧
    synthMegamolbartChecked ctx = Except.ok (synthMegamolbart ctx) := by
  obtain ⟨⟨f, hf⟩, ⟨c, hc⟩, ⟨n, hn⟩, ⟨e, he⟩, ⟨i, hi⟩, ⟨v, hv⟩, ⟨m, hm⟩, ⟨u, hu⟩, ⟨ch, hch⟩⟩ := h
  constructor <;>
  · by_cases hT : ctx "create_new_vpc" = some (CtxVal.str "True") <;>
      simp [synthCheminformaticsChecked, synthMegamolbartChecked, hT,
        hc, hn, he, hi, hv, hm, hch, requireStr, requireNat,
        bind, Except.bind, pure, Except.pure]

/-- Witness for C8: the unit-test context is valid and both checked
syntheses succeed on it. -/
theorem c8_valid_context_synthesizes_witness :
    ValidCtx sampleCtx ∧
    synthCheminformaticsChecked sampleCtx = Except.ok (synthCheminformatics sampleCtx) ∧
    synthMegamolbartChecked sampleCtx = Except.ok (synthMegamolbart sampleCtx) := by
  have hv : ValidCtx sampleCtx :=
    ⟨⟨"True", by decide⟩, ⟨"10.0.0.0/24", by decide⟩, ⟨2, by decide⟩,
     ⟨"SomeVpcName", by decide⟩, ⟨"p3.2xlarge", by decide⟩, ⟨100, by decide⟩,
     ⟨"nvcr.io/nvidia/clara/megamolbart:0.1.2", by decide⟩,
     ⟨"https://api.ngc.nvidia.com/v2/models/nvidia/clara/megamolbart/versions/0.1/zip", by decide⟩,
     ⟨"public.ecr.aws/b9g4r0v3/cheminformatics_demo:0.1.2", by decide⟩⟩
  exact ⟨hv, c8_valid_context_synthesizes sampleCtx hv⟩
